import Mathlib

set_option maxHeartbeats 1000000

/-!
Shallow embedding of the progression / lock engine of the MCV arithmetic
practice game.

Sources embedded here:
  - src/unnamed/part_000 (the types module): `GameType`, `PlayMode`,
    `MasteryRating`, `TestResult`, `AppState`;
  - src/constants.tsx: `INITIAL_STATE`;
  - src/components/Screens.tsx: `addEmeralds`, `completeGame`, `startGame`
    (its lock guard), `buyItem`, the two places a mastery rating is computed
    from a score (`TestSelection` line 303 and `GameScreen` line 683), and
    the practice-mode `finalResult` of `GameScreen` (line 684).

Modelling conventions: JS numbers that only ever hold integers are `Int`;
`Math.floor (a / b)` is `Int.fdiv a b`; the per-variant records
(`successCounts`, `isLocked`, `otherSuccessesSinceLock`) are total maps
`GameType → _` because `INITIAL_STATE` populates all four keys and every
transition preserves them; `testScores` starts as the empty record `{}` so it
is `GameType → Option Int`, with every source read going through `|| 0`,
i.e. `Option.getD _ 0`.  React's `setState(prev => …)` functional updates
become plain functions `AppState → AppState`; a completed game attempt
enqueues two of them in order (`completeGame`'s own updater, then the one of
`addEmeralds`), which is captured by `completeGameUpdaters` and their
composition `completeGame`.
-/

/-- The four game variants (`GameType` enum in the types module). -/
inductive GameType where
  | MAKE_TEN
  | NUMBER_HOP
  | DOUBLES
  | COUNT_UP
deriving DecidableEq

/-- Play modes (`PlayMode` enum in the types module). -/
inductive PlayMode where
  | TIMED
  | FREE
  | STREAK
deriving DecidableEq

/-- Mastery tiers (`MasteryRating` in the types module). -/
inductive MasteryRating where
  | Diamond
  | Iron
  | Wood
deriving DecidableEq

/-- Structure `TestResult` (types module): the payload a finished game session hands to
`completeGame`. -/
structure TestResult where
  score : Int
  rating : MasteryRating
  time : Int
  gameType : GameType

/-- Structure `AppState` (types module): the single persisted progress snapshot. -/
structure AppState where
  emeralds : Int
  xp : Int
  level : Int
  testScores : GameType → Option Int
  unlockedItems : List String
  equippedItem : String
  hearts : Int
  successCounts : GameType → Int
  isLocked : GameType → Bool
  otherSuccessesSinceLock : GameType → Int
  currentPlayMode : PlayMode
  streak : Int

/-- Constant `INITIAL_STATE` (src/constants.tsx lines 4-32). -/
def INITIAL_STATE : AppState where
  emeralds := 0
  xp := 0
  level := 1
  testScores := fun _ => none
  unlockedItems := ["base-char"]
  equippedItem := "base-char"
  hearts := 3
  successCounts := fun _ => 0
  isLocked := fun _ => false
  otherSuccessesSinceLock := fun _ => 0
  currentPlayMode := PlayMode.TIMED
  streak := 0

/-- Function `addEmeralds` (Screens.tsx lines 838-845): adds `amount` to `emeralds`,
`amount * 5` to `xp`, and recomputes `level` as
`Math.floor((xp + amount * 5) / 100) + 1`. -/
def addEmeralds (prev : AppState) (amount : Int) : AppState :=
  { prev with
    emeralds := prev.emeralds + amount
    xp := prev.xp + amount * 5
    level := (prev.xp + amount * 5).fdiv 100 + 1 }

/-- The key order of the per-variant records: `Object.keys` on the spreads of
`INITIAL_STATE`'s maps returns the insertion order of src/constants.tsx. -/
def gameTypes : List GameType :=
  [GameType.MAKE_TEN, GameType.NUMBER_HOP, GameType.DOUBLES, GameType.COUNT_UP]

/-- Body of the `Object.keys(newLocks).forEach` loop of `completeGame`
(Screens.tsx lines 866-875), acting on the accumulator
`(newLocks, newCounts, newUnlockCounters)`: for a locked `gameKey` other than
the played `type`, bump its unlock counter and, once that counter reaches 3,
unlock it and zero both of its counters. -/
def unlockLoopStep (type : GameType)
    (acc : (GameType → Bool) × (GameType → Int) × (GameType → Int))
    (gameKey : GameType) :
    (GameType → Bool) × (GameType → Int) × (GameType → Int) :=
  if acc.1 gameKey = true ∧ gameKey ≠ type then
    if acc.2.2 gameKey + 1 ≥ 3 then
      (Function.update acc.1 gameKey false,
       Function.update acc.2.1 gameKey 0,
       Function.update acc.2.2 gameKey 0)
    else
      (acc.1, acc.2.1,
       Function.update acc.2.2 gameKey (acc.2.2 gameKey + 1))
  else acc

/-- The `setState` updater enqueued by `completeGame` (Screens.tsx lines
850-882).  Test mode: best-score bookkeeping on `testScores` (lines 854-858).
Practice mode: increment the played variant's success count, lock it at 5,
then run the unlock loop over all variants (lines 859-879). -/
def completeGameUpdate (isTestMode : Bool) (result : TestResult)
    (prev : AppState) : AppState :=
  let type := result.gameType
  if isTestMode then
    let currentBest := (prev.testScores type).getD 0
    if result.score ≥ currentBest then
      { prev with testScores := Function.update prev.testScores type (some result.score) }
    else prev
  else
    let newCounts := Function.update prev.successCounts type (prev.successCounts type + 1)
    let newLocks := if newCounts type ≥ 5 then Function.update prev.isLocked type true else prev.isLocked
    let res := gameTypes.foldl (unlockLoopStep type) (newLocks, newCounts, prev.otherSuccessesSinceLock)
    { prev with
      successCounts := res.2.1
      isLocked := res.1
      otherSuccessesSinceLock := res.2.2 }

/-- The two functional state updates a completed game attempt enqueues, in
order: `completeGame`'s own `setState` updater, then the `setState` updater of
`addEmeralds(Math.floor(result.score / 10))` (Screens.tsx line 884). -/
def completeGameUpdaters (isTestMode : Bool) (result : TestResult) :
    List (AppState → AppState) :=
  [completeGameUpdate isTestMode result,
   fun s => addEmeralds s (result.score.fdiv 10)]

/-- Net effect of `completeGame` (Screens.tsx lines 847-886) on the app
state: both enqueued updaters applied in order. -/
def completeGame (isTestMode : Bool) (result : TestResult)
    (prev : AppState) : AppState :=
  addEmeralds (completeGameUpdate isTestMode result prev) (result.score.fdiv 10)

/-- Function `buyItem` (Screens.tsx lines 904-915): deduct the price and add the item
when affordable and not yet owned; merely re-equip an owned item. -/
def buyItem (state : AppState) (price : Int) (itemId : String) : AppState :=
  if state.emeralds ≥ price ∧ itemId ∉ state.unlockedItems then
    { state with
      emeralds := state.emeralds - price
      unlockedItems := state.unlockedItems ++ [itemId]
      equippedItem := itemId }
  else if itemId ∈ state.unlockedItems then
    { state with equippedItem := itemId }
  else state

/-- The practice-mode `finalResult` of `GameScreen` (Screens.tsx line 684):
score 100, rating Diamond, time 0. -/
def practiceResult (t : GameType) : TestResult :=
  { score := 100, rating := MasteryRating.Diamond, time := 0, gameType := t }

/-- One user-level practice attempt on variant `t`: the lock guard of
`startGame` (Screens.tsx line 889, `if (!test && state.isLocked[type]) return`)
composed with the successful-session completion path
(`GameScreen` line 684 ∘ `completeGame`).  When the variant is resting the
attempt never starts and the state is untouched. -/
def practiceSession (s : AppState) (t : GameType) : AppState :=
  if s.isLocked t = true then s
  else completeGame false (practiceResult t) s

/-- Rating computation of `TestSelection` (Screens.tsx line 303):
`score >= 90 ? Diamond : score >= 75 ? Iron : Wood`. -/
def ratingOfScore (score : Int) : MasteryRating :=
  if score ≥ 90 then MasteryRating.Diamond
  else if score ≥ 75 then MasteryRating.Iron
  else MasteryRating.Wood

/-- Rating computation inside `GameScreen`'s test `finalResult` (Screens.tsx
line 683): `score >= 90 ? 'Diamond' : 'Wood'` where
`score = (nextCorrect / 10) * 100` (exact in JS doubles for 0-10 correct). -/
def gameScreenTestRating (score : Int) : MasteryRating :=
  if score ≥ 90 then MasteryRating.Diamond
  else MasteryRating.Wood

/-- The operations of the engine interface a live session can fold over the
state (completed attempts and shop purchases; the parent-panel erase swaps in
the fixed `INITIAL_STATE` and is treated separately in `Reachable`). -/
inductive GameOp where
  | complete (isTestMode : Bool) (result : TestResult)
  | buy (price : Int) (itemId : String)

/-- Apply one engine operation to the state. -/
def applyOp (s : AppState) : GameOp → AppState
  | GameOp.complete iTM r => completeGame iTM r s
  | GameOp.buy p i => buyItem s p i

/-- Apply a sequence of engine operations from left to right. -/
def applyOps (s : AppState) (ops : List GameOp) : AppState :=
  ops.foldl applyOp s

/-- States the app can reach: the initial snapshot, completed attempts (the
game screens only produce scores within 0..100), shop purchases, and the
parent-panel reset back to `INITIAL_STATE`. -/
inductive Reachable : AppState → Prop where
  | init : Reachable INITIAL_STATE
  | complete (isTestMode : Bool) (r : TestResult) (s : AppState)
      (hs : Reachable s) (h0 : 0 ≤ r.score) (h1 : r.score ≤ 100) :
      Reachable (completeGame isTestMode r s)
  | buy (price : Int) (itemId : String) (s : AppState) (hs : Reachable s) :
      Reachable (buyItem s price itemId)
  | reset (s : AppState) (hs : Reachable s) : Reachable INITIAL_STATE

/-- Concrete reachable state used for the unlock-transition analysis: five
successful practice completions on DOUBLES from the initial state, leaving
DOUBLES locked with unlock counter 0. -/
def lockedDoublesState : AppState :=
  completeGame false (practiceResult GameType.DOUBLES)
    (completeGame false (practiceResult GameType.DOUBLES)
      (completeGame false (practiceResult GameType.DOUBLES)
        (completeGame false (practiceResult GameType.DOUBLES)
          (completeGame false (practiceResult GameType.DOUBLES) INITIAL_STATE))))

/-- Read off the lock / success-count / unlock-counter accumulator at one key. -/
def atKey (g : GameType)
    (acc : (GameType → Bool) × (GameType → Int) × (GameType → Int)) :
    Bool × Int × Int :=
  (acc.1 g, acc.2.1 g, acc.2.2 g)

theorem unlockLoopStep_apply_ne (type : GameType)
    (acc : (GameType → Bool) × (GameType → Int) × (GameType → Int))
    (k g : GameType) (h : g ≠ k) :
    atKey g (unlockLoopStep type acc k) = atKey g acc := by
  unfold unlockLoopStep atKey
  split
  · split <;> simp [Function.update_noteq h]
  · rfl

theorem unlockLoopStep_apply_self (type : GameType)
    (acc : (GameType → Bool) × (GameType → Int) × (GameType → Int))
    (k : GameType) :
    atKey k (unlockLoopStep type acc k) =
      if acc.1 k = true ∧ k ≠ type then
        if acc.2.2 k + 1 ≥ 3 then (false, 0, 0)
        else (acc.1 k, acc.2.1 k, acc.2.2 k + 1)
      else atKey k acc := by
  unfold unlockLoopStep atKey
  split
  · split <;> simp_all [Function.update_same]
  · simp_all

theorem unlockLoop_foldl_not_mem (type g : GameType) (l : List GameType)
    (acc : (GameType → Bool) × (GameType → Int) × (GameType → Int))
    (h : g ∉ l) :
    atKey g (l.foldl (unlockLoopStep type) acc) = atKey g acc := by
  induction l generalizing acc with
  | nil => rfl
  | cons a l ih =>
    simp only [List.mem_cons, not_or] at h
    rw [List.foldl_cons, ih _ h.2, unlockLoopStep_apply_ne type acc a g h.1]

theorem unlockLoop_atKey_of_split (type g : GameType)
    (L : GameType → Bool) (C U : GameType → Int)
    (l₁ l₂ : List GameType)
    (hsplit : gameTypes = l₁ ++ g :: l₂) (h₁ : g ∉ l₁) (h₂ : g ∉ l₂) :
    atKey g (gameTypes.foldl (unlockLoopStep type) (L, C, U)) =
      if L g = true ∧ g ≠ type then
        if U g + 1 ≥ 3 then (false, 0, 0)
        else (L g, C g, U g + 1)
      else (L g, C g, U g) := by
  rw [hsplit, List.foldl_append, List.foldl_cons]
  rw [unlockLoop_foldl_not_mem type g l₂ _ h₂]
  rw [unlockLoopStep_apply_self]
  have hmid := unlockLoop_foldl_not_mem type g l₁ (L, C, U) h₁
  have e1 : (l₁.foldl (unlockLoopStep type) (L, C, U)).1 g = L g :=
    congrArg Prod.fst hmid
  have e2 : (l₁.foldl (unlockLoopStep type) (L, C, U)).2.1 g = C g :=
    congrArg (fun p => p.2.1) hmid
  have e3 : (l₁.foldl (unlockLoopStep type) (L, C, U)).2.2 g = U g :=
    congrArg (fun p => p.2.2) hmid
  rw [e1, e2, e3, hmid]
  rfl

theorem unlockLoop_atKey (type g : GameType)
    (L : GameType → Bool) (C U : GameType → Int) :
    atKey g (gameTypes.foldl (unlockLoopStep type) (L, C, U)) =
      if L g = true ∧ g ≠ type then
        if U g + 1 ≥ 3 then (false, 0, 0)
        else (L g, C g, U g + 1)
      else (L g, C g, U g) := by
  cases g with
  | MAKE_TEN =>
    exact unlockLoop_atKey_of_split type _ L C U []
      [GameType.NUMBER_HOP, GameType.DOUBLES, GameType.COUNT_UP]
      rfl (by decide) (by decide)
  | NUMBER_HOP =>
    exact unlockLoop_atKey_of_split type _ L C U [GameType.MAKE_TEN]
      [GameType.DOUBLES, GameType.COUNT_UP] rfl (by decide) (by decide)
  | DOUBLES =>
    exact unlockLoop_atKey_of_split type _ L C U
      [GameType.MAKE_TEN, GameType.NUMBER_HOP] [GameType.COUNT_UP]
      rfl (by decide) (by decide)
  | COUNT_UP =>
    exact unlockLoop_atKey_of_split type _ L C U
      [GameType.MAKE_TEN, GameType.NUMBER_HOP, GameType.DOUBLES] []
      rfl (by decide) (by decide)

theorem addEmeralds_isLocked (s : AppState) (a : Int) :
    (addEmeralds s a).isLocked = s.isLocked := rfl

theorem addEmeralds_successCounts (s : AppState) (a : Int) :
    (addEmeralds s a).successCounts = s.successCounts := rfl

theorem addEmeralds_otherSuccesses (s : AppState) (a : Int) :
    (addEmeralds s a).otherSuccessesSinceLock = s.otherSuccessesSinceLock := rfl

theorem addEmeralds_testScores (s : AppState) (a : Int) :
    (addEmeralds s a).testScores = s.testScores := rfl

theorem completeGame_practice_atKey (r : TestResult) (prev : AppState) (g : GameType) :
    ((completeGame false r prev).isLocked g,
     (completeGame false r prev).successCounts g,
     (completeGame false r prev).otherSuccessesSinceLock g) =
      if g = r.gameType then
        ((if prev.successCounts g + 1 ≥ 5 then true else prev.isLocked g),
         prev.successCounts g + 1,
         prev.otherSuccessesSinceLock g)
      else if prev.isLocked g = true then
        (if prev.otherSuccessesSinceLock g + 1 ≥ 3 then ((false : Bool), (0 : Int), (0 : Int))
         else (prev.isLocked g, prev.successCounts g, prev.otherSuccessesSinceLock g + 1))
      else (prev.isLocked g, prev.successCounts g, prev.otherSuccessesSinceLock g) := by
  have hC : Function.update prev.successCounts r.gameType
      (prev.successCounts r.gameType + 1) r.gameType =
      prev.successCounts r.gameType + 1 := Function.update_same _ _ _
  show atKey g (gameTypes.foldl (unlockLoopStep r.gameType) _) = _
  rw [unlockLoop_atKey]
  by_cases hg : g = r.gameType
  · subst hg
    rw [if_neg (by simp), if_pos rfl, hC]
    by_cases h5 : prev.successCounts r.gameType + 1 ≥ 5
    · rw [if_pos h5, if_pos h5, Function.update_same]
    · rw [if_neg h5, if_neg h5]
  · have hCg : Function.update prev.successCounts r.gameType
        (prev.successCounts r.gameType + 1) g = prev.successCounts g :=
      Function.update_noteq hg _ _
    have hL : (if Function.update prev.successCounts r.gameType
          (prev.successCounts r.gameType + 1) r.gameType ≥ 5
        then Function.update prev.isLocked r.gameType true
        else prev.isLocked) g = prev.isLocked g := by
      split
      · exact Function.update_noteq hg _ _
      · rfl
    rw [hL, hCg, if_neg hg]
    simp only [ne_eq, hg, not_false_iff, and_true]

theorem completeGame_practice_self (r : TestResult) (prev : AppState) :
    (completeGame false r prev).successCounts r.gameType = prev.successCounts r.gameType + 1 ∧
    (completeGame false r prev).isLocked r.gameType =
      (if prev.successCounts r.gameType + 1 ≥ 5 then true else prev.isLocked r.gameType) ∧
    (completeGame false r prev).otherSuccessesSinceLock r.gameType =
      prev.otherSuccessesSinceLock r.gameType := by
  have h := completeGame_practice_atKey r prev r.gameType
  rw [if_pos rfl] at h
  exact ⟨congrArg (fun p => p.2.1) h, congrArg Prod.fst h, congrArg (fun p => p.2.2) h⟩

theorem completeGame_practice_other (r : TestResult) (prev : AppState) (g : GameType)
    (hg : g ≠ r.gameType) :
    ((completeGame false r prev).isLocked g,
     (completeGame false r prev).successCounts g,
     (completeGame false r prev).otherSuccessesSinceLock g) =
      if prev.isLocked g = true then
        (if prev.otherSuccessesSinceLock g + 1 ≥ 3 then ((false : Bool), (0 : Int), (0 : Int))
         else (prev.isLocked g, prev.successCounts g, prev.otherSuccessesSinceLock g + 1))
      else (prev.isLocked g, prev.successCounts g, prev.otherSuccessesSinceLock g) := by
  have h := completeGame_practice_atKey r prev g
  rwa [if_neg hg] at h

theorem practiceSession_locked (s : AppState) (t : GameType)
    (h : s.isLocked t = true) : practiceSession s t = s := by
  unfold practiceSession
  rw [if_pos h]

theorem practiceSession_unlocked (s : AppState) (t : GameType)
    (h : s.isLocked t = false) :
    practiceSession s t = completeGame false (practiceResult t) s := by
  unfold practiceSession
  rw [h]
  simp

theorem practiceSession_step_below (s : AppState) (v : GameType) (k : Int)
    (hC : s.successCounts v = k) (hL : s.isLocked v = false) (hk : k + 1 < 5) :
    (practiceSession s v).successCounts v = k + 1 ∧
    (practiceSession s v).isLocked v = false := by
  rw [practiceSession_unlocked s v hL]
  have h := completeGame_practice_self (practiceResult v) s
  have hgt : (practiceResult v).gameType = v := rfl
  rw [hgt] at h
  refine ⟨by rw [h.1, hC], ?_⟩
  rw [h.2.1, hC, hL, if_neg (by omega)]

theorem practiceSession_step_lock (s : AppState) (v : GameType)
    (hC : s.successCounts v = 4) (hL : s.isLocked v = false) :
    (practiceSession s v).successCounts v = 5 ∧
    (practiceSession s v).isLocked v = true := by
  rw [practiceSession_unlocked s v hL]
  have h := completeGame_practice_self (practiceResult v) s
  have hgt : (practiceResult v).gameType = v := rfl
  rw [hgt] at h
  refine ⟨by rw [h.1, hC]; norm_num, ?_⟩
  rw [h.2.1, hC, if_pos (by omega)]

/-- C1: starting from `practiceSuccessCount[v] = 0` and `locked[v] = false`,
five consecutive successful practice attempts on `v` leave `v` locked with
success count 5, and a sixth practice attempt on `v` is stopped by the
`startGame` lock guard, leaving `v`'s own counters (success count and lock
flag) unchanged. -/
theorem C1_lock_transition (s : AppState) (v : GameType)
    (h0 : s.successCounts v = 0) (hL : s.isLocked v = false) :
    (practiceSession (practiceSession (practiceSession (practiceSession
        (practiceSession s v) v) v) v) v).isLocked v = true ∧
    (practiceSession (practiceSession (practiceSession (practiceSession
        (practiceSession s v) v) v) v) v).successCounts v = 5 ∧
    (practiceSession (practiceSession (practiceSession (practiceSession (practiceSession
        (practiceSession s v) v) v) v) v) v).successCounts v = 5 ∧
    (practiceSession (practiceSession (practiceSession (practiceSession (practiceSession
        (practiceSession s v) v) v) v) v) v).isLocked v = true := by
  have h1 := practiceSession_step_below s v 0 h0 hL (by omega)
  have h2 := practiceSession_step_below _ v 1 h1.1 h1.2 (by omega)
  have h3 := practiceSession_step_below _ v 2 h2.1 h2.2 (by omega)
  have h4 := practiceSession_step_below _ v 3 h3.1 h3.2 (by omega)
  have h5 := practiceSession_step_lock _ v (by rw [h4.1]; norm_num) h4.2
  have h6 := practiceSession_locked _ v h5.2
  rw [h6]
  exact ⟨h5.2, h5.1, h5.1, h5.2⟩

/-- Witness for C1 at the initial state and variant MAKE_TEN. -/
theorem C1_lock_transition_witness :
    INITIAL_STATE.successCounts GameType.MAKE_TEN = 0 ∧
    INITIAL_STATE.isLocked GameType.MAKE_TEN = false ∧
    (practiceSession (practiceSession (practiceSession (practiceSession (practiceSession
        (practiceSession INITIAL_STATE GameType.MAKE_TEN) GameType.MAKE_TEN)
        GameType.MAKE_TEN) GameType.MAKE_TEN) GameType.MAKE_TEN)
        GameType.MAKE_TEN).successCounts GameType.MAKE_TEN = 5 :=
  ⟨by decide, by decide,
    (C1_lock_transition INITIAL_STATE GameType.MAKE_TEN (by decide) (by decide)).2.2.1⟩

theorem completeGame_observer_unlock (r : TestResult) (prev : AppState) (g : GameType)
    (hg : g ≠ r.gameType) (hL : prev.isLocked g = true)
    (h3 : prev.otherSuccessesSinceLock g + 1 ≥ 3) :
    (completeGame false r prev).isLocked g = false ∧
    (completeGame false r prev).successCounts g = 0 ∧
    (completeGame false r prev).otherSuccessesSinceLock g = 0 := by
  have h := completeGame_practice_other r prev g hg
  rw [if_pos hL, if_pos h3] at h
  exact ⟨congrArg Prod.fst h, congrArg (fun p => p.2.1) h, congrArg (fun p => p.2.2) h⟩

theorem completeGame_observer_progress (r : TestResult) (prev : AppState) (g : GameType)
    (hg : g ≠ r.gameType) (hL : prev.isLocked g = true)
    (h3 : ¬ prev.otherSuccessesSinceLock g + 1 ≥ 3) :
    (completeGame false r prev).isLocked g = true ∧
    (completeGame false r prev).successCounts g = prev.successCounts g ∧
    (completeGame false r prev).otherSuccessesSinceLock g =
      prev.otherSuccessesSinceLock g + 1 := by
  have h := completeGame_practice_other r prev g hg
  rw [if_pos hL, if_neg h3] at h
  exact ⟨(congrArg Prod.fst h).trans hL, congrArg (fun p => p.2.1) h,
    congrArg (fun p => p.2.2) h⟩

theorem completeGame_observer_frame (r : TestResult) (prev : AppState) (g : GameType)
    (hg : g ≠ r.gameType) (hL : prev.isLocked g = false) :
    (completeGame false r prev).isLocked g = false ∧
    (completeGame false r prev).successCounts g = prev.successCounts g ∧
    (completeGame false r prev).otherSuccessesSinceLock g =
      prev.otherSuccessesSinceLock g := by
  have h := completeGame_practice_other r prev g hg
  rw [if_neg (by rw [hL]; exact Bool.false_ne_true)] at h
  exact ⟨(congrArg Prod.fst h).trans hL, congrArg (fun p => p.2.1) h,
    congrArg (fun p => p.2.2) h⟩

/-- C2 (amended): from any state with `locked[v] = true` and a non-negative
unlock counter, three successful practice completions on variants other than
`v` leave `v` unlocked with both of its counters reset to 0; and when the
unlock counter starts at 0 (as it does right after locking), two such
completions leave `v` still locked with `unlockProgress[v] = 2`. -/
theorem C2_unlock_transition (s : AppState) (v : GameType) (r1 r2 r3 : TestResult)
    (hv1 : v ≠ r1.gameType) (hv2 : v ≠ r2.gameType) (hv3 : v ≠ r3.gameType)
    (hL : s.isLocked v = true) (hU : 0 ≤ s.otherSuccessesSinceLock v) :
    ((completeGame false r3 (completeGame false r2 (completeGame false r1 s))).isLocked v = false ∧
     (completeGame false r3 (completeGame false r2 (completeGame false r1 s))).successCounts v = 0 ∧
     (completeGame false r3 (completeGame false r2 (completeGame false r1 s))).otherSuccessesSinceLock v = 0) ∧
    (s.otherSuccessesSinceLock v = 0 →
      (completeGame false r2 (completeGame false r1 s)).isLocked v = true ∧
      (completeGame false r2 (completeGame false r1 s)).otherSuccessesSinceLock v = 2) := by
  constructor
  · by_cases c1 : s.otherSuccessesSinceLock v + 1 ≥ 3
    · have h1 := completeGame_observer_unlock r1 s v hv1 hL c1
      have h2 := completeGame_observer_frame r2 _ v hv2 h1.1
      have h3 := completeGame_observer_frame r3 _ v hv3 h2.1
      refine ⟨h3.1, ?_, ?_⟩
      · rw [h3.2.1, h2.2.1, h1.2.1]
      · rw [h3.2.2, h2.2.2, h1.2.2]
    · have h1 := completeGame_observer_progress r1 s v hv1 hL c1
      by_cases c2 : (completeGame false r1 s).otherSuccessesSinceLock v + 1 ≥ 3
      · have h2 := completeGame_observer_unlock r2 _ v hv2 h1.1 c2
        have h3 := completeGame_observer_frame r3 _ v hv3 h2.1
        refine ⟨h3.1, ?_, ?_⟩
        · rw [h3.2.1, h2.2.1]
        · rw [h3.2.2, h2.2.2]
      · have h2 := completeGame_observer_progress r2 _ v hv2 h1.1 c2
        have c3 : (completeGame false r2 (completeGame false r1 s)).otherSuccessesSinceLock v + 1 ≥ 3 := by
          rw [h2.2.2, h1.2.2] at *
          omega
        have h3 := completeGame_observer_unlock r3 _ v hv3 h2.1 c3
        exact ⟨h3.1, h3.2.1, h3.2.2⟩
  · intro hU0
    have c1 : ¬ s.otherSuccessesSinceLock v + 1 ≥ 3 := by omega
    have h1 := completeGame_observer_progress r1 s v hv1 hL c1
    have c2 : ¬ (completeGame false r1 s).otherSuccessesSinceLock v + 1 ≥ 3 := by
      rw [h1.2.2, hU0]
      norm_num
    have h2 := completeGame_observer_progress r2 _ v hv2 h1.1 c2
    refine ⟨h2.1, ?_⟩
    rw [h2.2.2, h1.2.2, hU0]
    norm_num


/-- C2 counterexample: a reachable state in which DOUBLES is locked but its
unlock counter is already 1 (five practice successes on DOUBLES, then one on
MAKE_TEN).  Two further successful practice completions on MAKE_TEN do not
leave DOUBLES locked with unlock progress 2 — they unlock it. -/
theorem C2_counterexample :
    (completeGame false (practiceResult GameType.MAKE_TEN)
        lockedDoublesState).isLocked GameType.DOUBLES = true ∧
    (completeGame false (practiceResult GameType.MAKE_TEN)
        lockedDoublesState).otherSuccessesSinceLock GameType.DOUBLES = 1 ∧
    (completeGame false (practiceResult GameType.MAKE_TEN)
      (completeGame false (practiceResult GameType.MAKE_TEN)
        (completeGame false (practiceResult GameType.MAKE_TEN)
          lockedDoublesState))).isLocked GameType.DOUBLES = false ∧
    (completeGame false (practiceResult GameType.MAKE_TEN)
      (completeGame false (practiceResult GameType.MAKE_TEN)
        (completeGame false (practiceResult GameType.MAKE_TEN)
          lockedDoublesState))).otherSuccessesSinceLock GameType.DOUBLES = 0 := by
  decide

/-- Witness for C2 at a concrete reachable locked state. -/
theorem C2_unlock_transition_witness :
    lockedDoublesState.isLocked GameType.DOUBLES = true ∧
    (0 : Int) ≤ lockedDoublesState.otherSuccessesSinceLock GameType.DOUBLES ∧
    (completeGame false (practiceResult GameType.MAKE_TEN)
      (completeGame false (practiceResult GameType.MAKE_TEN)
        (completeGame false (practiceResult GameType.MAKE_TEN)
          lockedDoublesState))).isLocked GameType.DOUBLES = false ∧
    (completeGame false (practiceResult GameType.MAKE_TEN)
      (completeGame false (practiceResult GameType.MAKE_TEN)
        lockedDoublesState)).otherSuccessesSinceLock GameType.DOUBLES = 2 :=
  ⟨by decide, by decide,
   (C2_unlock_transition lockedDoublesState GameType.DOUBLES
      (practiceResult GameType.MAKE_TEN) (practiceResult GameType.MAKE_TEN)
      (practiceResult GameType.MAKE_TEN)
      (by decide) (by decide) (by decide) (by decide) (by decide)).1.1,
   ((C2_unlock_transition lockedDoublesState GameType.DOUBLES
      (practiceResult GameType.MAKE_TEN) (practiceResult GameType.MAKE_TEN)
      (practiceResult GameType.MAKE_TEN)
      (by decide) (by decide) (by decide) (by decide) (by decide)).2 (by decide)).2⟩

theorem completeGameUpdate_money (isTestMode : Bool) (r : TestResult) (s : AppState) :
    (completeGameUpdate isTestMode r s).emeralds = s.emeralds ∧
    (completeGameUpdate isTestMode r s).xp = s.xp := by
  cases isTestMode
  · exact ⟨rfl, rfl⟩
  · simp only [completeGameUpdate]
    rw [if_pos trivial]
    split
    · exact ⟨rfl, rfl⟩
    · exact ⟨rfl, rfl⟩

/-- C3 counterexample: a completed practice attempt on MAKE_TEN from the
initial state enqueues two state updates, and the first written state already
reflects the attempt in the ledger (`successCounts` bumped) while the reward
fields (`emeralds`, `xp`) still hold their pre-attempt values — an
intermediate state in which only some mappings reflect the attempt. -/
theorem C3_counterexample :
    (completeGameUpdaters false (practiceResult GameType.MAKE_TEN)).length = 2 ∧
    (completeGameUpdate false (practiceResult GameType.MAKE_TEN)
        INITIAL_STATE).successCounts GameType.MAKE_TEN = 1 ∧
    (completeGameUpdate false (practiceResult GameType.MAKE_TEN)
        INITIAL_STATE).emeralds = 0 ∧
    (completeGameUpdate false (practiceResult GameType.MAKE_TEN)
        INITIAL_STATE).xp = 0 ∧
    (completeGame false (practiceResult GameType.MAKE_TEN)
        INITIAL_STATE).emeralds = 10 ∧
    (completeGame false (practiceResult GameType.MAKE_TEN)
        INITIAL_STATE).xp = 50 := by
  decide

/-- C3 (amended): each completed attempt enqueues exactly two sequential
functional updates — the ledger update of `completeGame`'s own `setState`,
then the reward update of `addEmeralds` — whose composition is the final
snapshot: it carries the ledger mappings of the first update together with
the reward fields derived from the attempt's score, and its `level` is
consistent with its `xp`. -/
theorem C3_two_updates (isTestMode : Bool) (r : TestResult) (s : AppState) :
    (completeGameUpdaters isTestMode r).foldl (fun st f => f st) s =
      completeGame isTestMode r s ∧
    (completeGameUpdaters isTestMode r).length = 2 ∧
    (completeGame isTestMode r s).successCounts =
      (completeGameUpdate isTestMode r s).successCounts ∧
    (completeGame isTestMode r s).isLocked =
      (completeGameUpdate isTestMode r s).isLocked ∧
    (completeGame isTestMode r s).otherSuccessesSinceLock =
      (completeGameUpdate isTestMode r s).otherSuccessesSinceLock ∧
    (completeGame isTestMode r s).testScores =
      (completeGameUpdate isTestMode r s).testScores ∧
    (completeGame isTestMode r s).emeralds = s.emeralds + r.score.fdiv 10 ∧
    (completeGame isTestMode r s).xp = s.xp + r.score.fdiv 10 * 5 ∧
    (completeGame isTestMode r s).level =
      (completeGame isTestMode r s).xp.fdiv 100 + 1 := by
  have hm := completeGameUpdate_money isTestMode r s
  refine ⟨rfl, rfl, rfl, rfl, rfl, rfl, ?_, ?_, rfl⟩
  · show (completeGameUpdate isTestMode r s).emeralds + r.score.fdiv 10 =
      s.emeralds + r.score.fdiv 10
    rw [hm.1]
  · show (completeGameUpdate isTestMode r s).xp + r.score.fdiv 10 * 5 =
      s.xp + r.score.fdiv 10 * 5
    rw [hm.2]

/-- C4: the mastery rule holds at the `TestSelection` site (boundaries 90 and
75 belong to the higher tier), but the `GameScreen` site omits the Iron tier:
a test score of 80 is rated Wood there although the rule (and the
`TestSelection` site) rate it Iron. -/
theorem C4_rating_sites :
    ratingOfScore 90 = MasteryRating.Diamond ∧
    ratingOfScore 89 = MasteryRating.Iron ∧
    ratingOfScore 75 = MasteryRating.Iron ∧
    ratingOfScore 74 = MasteryRating.Wood ∧
    gameScreenTestRating 90 = MasteryRating.Diamond ∧
    gameScreenTestRating 80 = MasteryRating.Wood ∧
    gameScreenTestRating 80 ≠ ratingOfScore 80 := by
  decide

theorem completeGame_test_testScores (r : TestResult) (s : AppState) :
    (completeGame true r s).testScores =
      if r.score ≥ (s.testScores r.gameType).getD 0
      then Function.update s.testScores r.gameType (some r.score)
      else s.testScores := by
  show (completeGameUpdate true r s).testScores = _
  simp only [completeGameUpdate]
  rw [if_pos trivial]
  split
  · rfl
  · rfl

theorem completeGame_test_best (r : TestResult) (s : AppState) :
    ((completeGame true r s).testScores r.gameType).getD 0 =
      max ((s.testScores r.gameType).getD 0) r.score := by
  rw [completeGame_test_testScores]
  split
  · rename_i h
    rw [Function.update_same, max_eq_right h]
    rfl
  · rename_i h
    rw [max_eq_left (by omega)]

theorem completeGame_test_other (r : TestResult) (s : AppState) (g : GameType)
    (hg : g ≠ r.gameType) :
    (completeGame true r s).testScores g = s.testScores g := by
  rw [completeGame_test_testScores]
  split
  · exact Function.update_noteq hg _ _
  · rfl

theorem completeGame_practice_testScores (r : TestResult) (s : AppState) :
    (completeGame false r s).testScores = s.testScores := rfl

theorem buyItem_testScores (s : AppState) (p : Int) (i : String) :
    (buyItem s p i).testScores = s.testScores := by
  unfold buyItem
  split
  · rfl
  · split
    · rfl
    · rfl

theorem applyOp_best_mono (s : AppState) (o : GameOp) (v : GameType) :
    (s.testScores v).getD 0 ≤ ((applyOp s o).testScores v).getD 0 := by
  cases o with
  | complete iTM r =>
    cases iTM
    · rw [show applyOp s (GameOp.complete false r) = completeGame false r s from rfl,
        completeGame_practice_testScores]
    · show (s.testScores v).getD 0 ≤ ((completeGame true r s).testScores v).getD 0
      by_cases hg : v = r.gameType
      · subst hg
        rw [completeGame_test_best]
        exact le_max_left _ _
      · rw [completeGame_test_other r s v hg]
  | buy p i =>
    rw [show applyOp s (GameOp.buy p i) = buyItem s p i from rfl, buyItem_testScores]

theorem applyOps_best_mono (s : AppState) (ops : List GameOp) (v : GameType) :
    (s.testScores v).getD 0 ≤ ((applyOps s ops).testScores v).getD 0 := by
  induction ops generalizing s with
  | nil => exact le_refl _
  | cons o ops ih =>
    exact le_trans (applyOp_best_mono s o v) (ih (applyOp s o))

/-- C5: a test result stores `max(previous best or 0, score)` for its variant
(an equal or higher score overwrites with exactly the new value, a lower one
leaves the map untouched), and the recorded best is monotonically
non-decreasing under any sequence of gameplay operations. -/
theorem C5_best_score_max :
    (∀ (r : TestResult) (s : AppState),
      (completeGame true r s).testScores =
        if r.score ≥ (s.testScores r.gameType).getD 0
        then Function.update s.testScores r.gameType (some r.score)
        else s.testScores) ∧
    (∀ (r : TestResult) (s : AppState),
      ((completeGame true r s).testScores r.gameType).getD 0 =
        max ((s.testScores r.gameType).getD 0) r.score) ∧
    (∀ (s : AppState) (ops : List GameOp) (v : GameType),
      (s.testScores v).getD 0 ≤ ((applyOps s ops).testScores v).getD 0) :=
  ⟨completeGame_test_testScores, completeGame_test_best, applyOps_best_mono⟩

/-- C7: every completed attempt adds `floor(score / 10)` emeralds and five
times that amount of xp; a score of 83 yields deltas 8 and 40. -/
theorem C7_reward (isTestMode : Bool) (r : TestResult) (s : AppState) :
    (completeGame isTestMode r s).emeralds = s.emeralds + r.score.fdiv 10 ∧
    (completeGame isTestMode r s).xp = s.xp + 5 * r.score.fdiv 10 ∧
    Int.fdiv 83 10 = 8 ∧ (5 : Int) * Int.fdiv 83 10 = 40 := by
  have hm := completeGameUpdate_money isTestMode r s
  refine ⟨?_, ?_, by decide, by decide⟩
  · show (completeGameUpdate isTestMode r s).emeralds + r.score.fdiv 10 =
      s.emeralds + r.score.fdiv 10
    rw [hm.1]
  · show (completeGameUpdate isTestMode r s).xp + r.score.fdiv 10 * 5 =
      s.xp + 5 * r.score.fdiv 10
    rw [hm.2]
    ring

theorem completeGameUpdate_test_ledger (r : TestResult) (s : AppState) :
    (completeGameUpdate true r s).isLocked = s.isLocked ∧
    (completeGameUpdate true r s).successCounts = s.successCounts ∧
    (completeGameUpdate true r s).otherSuccessesSinceLock = s.otherSuccessesSinceLock := by
  simp only [completeGameUpdate]
  rw [if_pos trivial]
  split
  · exact ⟨rfl, rfl, rfl⟩
  · exact ⟨rfl, rfl, rfl⟩

/-- C8: a test-mode completion never touches the lock state: `isLocked`,
`successCounts` and `otherSuccessesSinceLock` are unchanged for every
variant, whatever the state and score. -/
theorem C8_test_mode_frame (r : TestResult) (s : AppState) :
    (completeGame true r s).isLocked = s.isLocked ∧
    (completeGame true r s).successCounts = s.successCounts ∧
    (completeGame true r s).otherSuccessesSinceLock = s.otherSuccessesSinceLock :=
  completeGameUpdate_test_ledger r s

/-- C9 counterexample: an out-of-range score of 150 is not clamped anywhere:
it adds 15 emeralds (clamping to 100 would add 10), is stored verbatim as a
best test score above 100, and feeds the rating comparisons as-is. -/
theorem C9_counterexample :
    (completeGame true
      { score := 150, rating := MasteryRating.Diamond, time := 0,
        gameType := GameType.MAKE_TEN } INITIAL_STATE).emeralds = 15 ∧
    (completeGame true
      { score := 100, rating := MasteryRating.Diamond, time := 0,
        gameType := GameType.MAKE_TEN } INITIAL_STATE).emeralds = 10 ∧
    ((completeGame true
      { score := 150, rating := MasteryRating.Diamond, time := 0,
        gameType := GameType.MAKE_TEN } INITIAL_STATE).testScores
        GameType.MAKE_TEN).getD 0 = 150 := by
  decide

/-- C9 (amended): the engine performs no clamping: the raw score — whatever
its range — flows directly into the reward computation and the best-score
bookkeeping. -/
theorem C9_no_clamping (isTestMode : Bool) (r : TestResult) (s : AppState) :
    (completeGame isTestMode r s).emeralds = s.emeralds + r.score.fdiv 10 ∧
    (completeGame true r s).testScores =
      if r.score ≥ (s.testScores r.gameType).getD 0
      then Function.update s.testScores r.gameType (some r.score)
      else s.testScores := by
  have hm := completeGameUpdate_money isTestMode r s
  refine ⟨?_, completeGame_test_testScores r s⟩
  show (completeGameUpdate isTestMode r s).emeralds + r.score.fdiv 10 =
    s.emeralds + r.score.fdiv 10
  rw [hm.1]

theorem completeGame_emeralds (isTestMode : Bool) (r : TestResult) (s : AppState) :
    (completeGame isTestMode r s).emeralds = s.emeralds + r.score.fdiv 10 := by
  show (completeGameUpdate isTestMode r s).emeralds + r.score.fdiv 10 =
    s.emeralds + r.score.fdiv 10
  rw [(completeGameUpdate_money isTestMode r s).1]

theorem buyItem_money_frame (s : AppState) (p : Int) (i : String) :
    (buyItem s p i).xp = s.xp ∧ (buyItem s p i).level = s.level := by
  unfold buyItem
  split
  · exact ⟨rfl, rfl⟩
  · split
    · exact ⟨rfl, rfl⟩
    · exact ⟨rfl, rfl⟩

theorem buyItem_emeralds_eq (s : AppState) (p : Int) (i : String) :
    (buyItem s p i).emeralds =
      if s.emeralds ≥ p ∧ i ∉ s.unlockedItems then s.emeralds - p
      else s.emeralds := by
  unfold buyItem
  split
  · rfl
  · split
    · rfl
    · rfl

/-- C6: in every reachable state `level = floor(xp / 100) + 1` (every
xp-changing transition recomputes `level` from that formula and the initial
snapshot satisfies it), and four consecutive score-100 attempts from the
initial state yield `xp = 200` and `level = 3`. -/
theorem C6_level_invariant :
    (∀ s : AppState, Reachable s → s.level = s.xp.fdiv 100 + 1) ∧
    (completeGame false (practiceResult GameType.MAKE_TEN)
      (completeGame false (practiceResult GameType.MAKE_TEN)
        (completeGame false (practiceResult GameType.MAKE_TEN)
          (completeGame false (practiceResult GameType.MAKE_TEN)
            INITIAL_STATE)))).xp = 200 ∧
    (completeGame false (practiceResult GameType.MAKE_TEN)
      (completeGame false (practiceResult GameType.MAKE_TEN)
        (completeGame false (practiceResult GameType.MAKE_TEN)
          (completeGame false (practiceResult GameType.MAKE_TEN)
            INITIAL_STATE)))).level = 3 := by
  refine ⟨?_, by decide, by decide⟩
  intro s hs
  induction hs with
  | init => decide
  | complete iTM r s hs h0 h1 ih => rfl
  | buy price itemId s hs ih =>
    have hb := buyItem_money_frame s price itemId
    rw [hb.1, hb.2]
    exact ih
  | reset s hs ih => decide

/-- Witness for C6 at a concrete reachable state (one completed practice
attempt from the initial snapshot). -/
theorem C6_level_invariant_witness :
    Reachable (completeGame false (practiceResult GameType.MAKE_TEN) INITIAL_STATE) ∧
    (completeGame false (practiceResult GameType.MAKE_TEN) INITIAL_STATE).level =
      (completeGame false (practiceResult GameType.MAKE_TEN)
        INITIAL_STATE).xp.fdiv 100 + 1 :=
  ⟨Reachable.complete false (practiceResult GameType.MAKE_TEN) INITIAL_STATE
      Reachable.init (by decide) (by decide),
   C6_level_invariant.1 _
     (Reachable.complete false (practiceResult GameType.MAKE_TEN) INITIAL_STATE
       Reachable.init (by decide) (by decide))⟩

/-- C10: emeralds are non-negative in every reachable state; a purchase
deducts the price exactly when the item is affordable and not yet owned; and
buying an already-owned item merely re-equips it, leaving the emerald count
and the owned set unchanged. -/
theorem C10_currency :
    (∀ s : AppState, Reachable s → 0 ≤ s.emeralds) ∧
    (∀ (s : AppState) (p : Int) (i : String),
      (buyItem s p i).emeralds =
        if s.emeralds ≥ p ∧ i ∉ s.unlockedItems then s.emeralds - p
        else s.emeralds) ∧
    (∀ (s : AppState) (p : Int) (i : String), i ∈ s.unlockedItems →
      (buyItem s p i).emeralds = s.emeralds ∧
      (buyItem s p i).unlockedItems = s.unlockedItems ∧
      (buyItem s p i).equippedItem = i) := by
  refine ⟨?_, buyItem_emeralds_eq, ?_⟩
  · intro s hs
    induction hs with
    | init => decide
    | complete iTM r s hs h0 h1 ih =>
      rw [completeGame_emeralds]
      have hd : 0 ≤ r.score.fdiv 10 := Int.fdiv_nonneg h0 (by norm_num)
      omega
    | buy price itemId s hs ih =>
      rw [buyItem_emeralds_eq]
      split
      · rename_i h
        omega
      · exact ih
    | reset s hs ih => decide
  · intro s p i hi
    unfold buyItem
    rw [if_neg (by simp [hi]), if_pos hi]
    exact ⟨rfl, rfl, rfl⟩

/-- Witness for C10 at the initial state and its pre-owned item. -/
theorem C10_currency_witness :
    Reachable INITIAL_STATE ∧ (0 : Int) ≤ INITIAL_STATE.emeralds ∧
    "base-char" ∈ INITIAL_STATE.unlockedItems ∧
    (buyItem INITIAL_STATE 10 "base-char").equippedItem = "base-char" ∧
    (buyItem INITIAL_STATE 10 "base-char").emeralds = INITIAL_STATE.emeralds :=
  ⟨Reachable.init, C10_currency.1 _ Reachable.init, by decide,
   (C10_currency.2.2 INITIAL_STATE 10 "base-char" (by decide)).2.2,
   (C10_currency.2.2 INITIAL_STATE 10 "base-char" (by decide)).1⟩
